import Mathlib

/-!
Shallow embedding of the Smart Pet Feeder firmware (`src/main.cpp`, `src/motor.cpp`,
`src/sensor.cpp`, `src/gsm.cpp`) together with proofs about its bowl classifier,
button debounce, motion-profile generator, auto-feed policy and SMS priority queue.

Conventions of the embedding:
* `millis()` timestamps are 32-bit unsigned (`unsigned long` on the ESP32); every
  elapsed-time computation in the firmware has the shape `millis() - t0`, embedded
  here as `sub32` (wraparound subtraction mod `2^32`).
* distances (C `float`) are embedded as rationals; every comparison the firmware
  performs on them is an exact order comparison against a small integer constant,
  so the embedding is faithful for the properties proved here.
* serial logging, buzzer tones and GPIO writes are pure I/O with no effect on the
  program state and are not modelled.
* fallible operations (the I2C distance read) return `Option`; the C sentinel
  `-1.0` corresponds to `none` (all successful return values are positive).
-/

namespace PetFeeder

/-- `2^32`, the modulus of `unsigned long` arithmetic on the ESP32. -/
def U32 : Nat := 4294967296

/-- 32-bit unsigned subtraction `a - b` (the firmware's `millis() - t0` pattern),
faithful for `a b < U32`. -/
def sub32 (a b : Nat) : Nat := (a + U32 - b) % U32

/-- Conversion of a C `int` value to `unsigned long` (32-bit). -/
def toU32 (i : Int) : Nat := (i % (U32 : Int)).toNat

/-- `enum FeedingMode` from `config.h`. -/
inductive FeedingMode
  | cat
  | dog
deriving DecidableEq, Repr

/-- `enum SystemState` from `config.h`. -/
inductive SystemState
  | idle
  | checkingBowl
  | dispensing
  | alertEmptyHopper
  | manualFeeding
  | errorState
deriving DecidableEq, Repr

/-- `enum GSMStatus` from `gsm.h`. -/
inductive GSMStatus
  | offline
  | initializing
  | networkSearching
  | networkConnected
  | smsReady
  | gsmError
deriving DecidableEq, Repr

/-- `enum SMSAlertType` from `gsm.h`. -/
inductive SMSAlertType
  | autoFeed
  | manualFeedAlert
  | feedingError
  | dailyReset
  | bowlEmptyAlert
  | systemStatus
deriving DecidableEq, Repr

-- Configuration constants from `config.h`.
def BOWL_EMPTY_THRESHOLD : ℚ := 15
def BOWL_FULL_THRESHOLD : ℚ := 8
def CAT_MIN_PORTION : Nat := 500
def CAT_MAX_PORTION : Nat := 1700
def DOG_MIN_PORTION : Nat := 1700
def DOG_MAX_PORTION : Nat := 6800
def MOTOR_SPEED : Int := 200
def MOTOR_ACCELERATION : Int := 100
def DEBOUNCE_DELAY : Nat := 50
def SENSOR_READ_INTERVAL : Nat := 1000
def AUTO_FEED_MIN_INTERVAL : Nat := 120000
def AUTO_FEED_CHECK_INTERVAL : Nat := 5000
def MAX_DAILY_AUTO_FEEDS : Nat := 8
def BOWL_EMPTY_CONFIRMATION_TIME : Nat := 60000
def TEST_PHONE_NUMBER : String := "+639291145133"

/-- Modelled from the spec: `HOPPER_EMPTY_THRESHOLD` and `HOPPER_LOW_THRESHOLD`
are referenced by `analyzeHopperStatus` in `sensor.cpp` but their definitions are
missing from the repository's `config.h`; the spec gives hopper empty > 25 cm. -/
def HOPPER_EMPTY_THRESHOLD : ℚ := 25

/-- Modelled from the spec: hopper low < 20 cm (see `HOPPER_EMPTY_THRESHOLD`). -/
def HOPPER_LOW_THRESHOLD : ℚ := 20

/-- Digital level HIGH. -/
def HIGH : Bool := true

/-- Digital level LOW. -/
def LOW : Bool := false

/-- `readButtonWithDebounce` from `main.cpp` (lines 225-242).  Inputs are the two
carried reference cells (`lastState`, `lastDebounceTime`), the freshly sampled
level and the current `millis()` value; the result is
`(buttonPressed, new lastState, new lastDebounceTime)`. -/
def readButtonWithDebounce (lastState currentState : Bool) (lastDebounceTime now : Nat) :
    Bool × Bool × Nat :=
  if lastState = HIGH ∧ currentState = LOW then
    if sub32 now lastDebounceTime > DEBOUNCE_DELAY then
      (true, currentState, now)
    else
      (false, currentState, lastDebounceTime)
  else
    (false, currentState, lastDebounceTime)

/-- `analyzeBowlStatus` from `sensor.cpp` (lines 163-187): hysteresis update of the
`bowlEmpty` flag from the cached `currentDistance` (buzzer/log side effects omitted). -/
def analyzeBowlStatus (bowlEmpty : Bool) (currentDistance : ℚ) : Bool :=
  if currentDistance > BOWL_EMPTY_THRESHOLD then true
  else if currentDistance < BOWL_FULL_THRESHOLD then false
  else bowlEmpty

/-- `analyzeHopperStatus` from `sensor.cpp` (lines 189-214): hysteresis update of the
`hopperLow` flag (its transient `systemState` write nets to `IDLE` and the buzzer is
I/O; both omitted). -/
def analyzeHopperStatus (hopperLow : Bool) (currentDistance : ℚ) : Bool :=
  if currentDistance > HOPPER_EMPTY_THRESHOLD then true
  else if currentDistance < HOPPER_LOW_THRESHOLD then false
  else hopperLow

/-- Environment of one `readUltrasonicDistance` call: the transport responses the
I2C bus would deliver (`Wire.endTransmission` results, `Wire.available` count and
the three response bytes). -/
structure I2CEnv where
  firstError : Nat
  retryError : Nat
  availableBytes : Nat
  highByte : Nat
  lowByte : Nat
  checksum : Nat
deriving DecidableEq, Repr

/-- The read/validate tail of `readUltrasonicDistance` (`sensor.cpp` lines 130-160):
request 3 bytes, reconstruct `distance_mm = (high << 8) | low`, convert to cm and
range-check to `(0, 500)`.  A checksum mismatch is logged but tolerated.  The C
sentinel `-1.0` is `none`. -/
def readSensorFrame (env : I2CEnv) : Option ℚ :=
  if env.availableBytes ≥ 3 then
    let distance_mm : Nat := (env.highByte % 256) * 256 + env.lowByte % 256
    let distance_cm : ℚ := (distance_mm : ℚ) / 10
    if distance_cm > 0 ∧ distance_cm < 500 then some distance_cm else none
  else none

/-- `readUltrasonicDistance` from `sensor.cpp` (lines 93-161): trigger the
measurement, on a transport timeout (`error == 5`) re-initialize and retry exactly
once, other transport errors fail immediately; then read and validate the frame. -/
def readUltrasonicDistance (sensorInitialized : Bool) (env : I2CEnv) : Option ℚ :=
  if sensorInitialized = false then none
  else if env.firstError ≠ 0 then
    if env.firstError = 5 then
      if env.retryError ≠ 0 then none else readSensorFrame env
    else none
  else readSensorFrame env

/-- The sensor-facing slice of the globals of `main.cpp` used by `sensor.cpp`. -/
structure SensorState where
  currentDistance : ℚ
  bowlEmpty : Bool
  hopperLow : Bool
  lastSensorRead : Nat
  sensorInitialized : Bool
deriving DecidableEq, Repr

/-- `updateSensorReadings` from `sensor.cpp` (lines 74-91): at most once per
`SENSOR_READ_INTERVAL`, read the sensor; only a strictly positive (i.e. valid)
result overwrites `currentDistance` and re-runs the classifiers. -/
def updateSensorReadings (st : SensorState) (env : I2CEnv) (now : Nat) : SensorState :=
  if sub32 now st.lastSensorRead ≥ SENSOR_READ_INTERVAL then
    let st1 :=
      if st.sensorInitialized then
        match readUltrasonicDistance st.sensorInitialized env with
        | some newDistance =>
          { st with
            currentDistance := newDistance,
            bowlEmpty := analyzeBowlStatus st.bowlEmpty newDistance,
            hopperLow := analyzeHopperStatus st.hopperLow newDistance }
        | none => st
      else st
    { st1 with lastSensorRead := now }
  else st

-- ========================================
-- Motor (`motor.cpp`)
-- ========================================

def MIN_STEP_DELAY : Nat := 1000
def MAX_STEP_DELAY : Nat := 10000

/-- Outcome of the motion-profile computation in `dispensePortionSmooth`. -/
inductive SmoothOutcome
  | rejected
  | divByZero
  | ok (delayStep : Nat)
deriving DecidableEq, Repr

/-- The motion-profile arithmetic of `dispensePortionSmooth` (`motor.cpp` lines
141-205): reject `steps <= 0`; otherwise `accelSteps = min(steps / 4, acceleration)`,
`targetDelay = 1000000UL / maxSpeed` and
`delayStep = (MAX_STEP_DELAY - targetDelay) / accelSteps` in `unsigned long`
arithmetic.  The division by `accelSteps` when it is zero is undefined behavior in
the C source and is embedded as `divByZero`. -/
def dispenseDelayStep (steps maxSpeed acceleration : Int) : SmoothOutcome :=
  if steps ≤ 0 then SmoothOutcome.rejected
  else
    let accelSteps : Int := min (steps / 4) acceleration
    let targetDelay : Nat := 1000000 / toU32 maxSpeed
    if toU32 accelSteps = 0 then SmoothOutcome.divByZero
    else SmoothOutcome.ok (sub32 MAX_STEP_DELAY targetDelay / toU32 accelSteps)

/-- The portion chosen by `manualFeed` (`motor.cpp` lines 211-242): the current
mode's minimum portion. -/
def manualFeedSteps (mode : FeedingMode) : Nat :=
  if mode = FeedingMode.cat then CAT_MIN_PORTION else DOG_MIN_PORTION

/-- The portion chosen by `automaticFeed` (`motor.cpp` lines 244-270):
`(min + max) / 2` for the current mode. -/
def automaticFeedSteps (mode : FeedingMode) : Nat :=
  if mode = FeedingMode.cat then (CAT_MIN_PORTION + CAT_MAX_PORTION) / 2
  else (DOG_MIN_PORTION + DOG_MAX_PORTION) / 2

-- ========================================
-- GSM / SMS queue (`gsm.cpp`)
-- ========================================

def SMS_PRIORITY_HIGH : Nat := 0
def SMS_PRIORITY_MEDIUM : Nat := 1
def SMS_PRIORITY_LOW : Nat := 2
def MAX_SMS_QUEUE : Nat := 5

/-- `struct SMSQueueItem` from `gsm.cpp` (priority kept as its numeric enum value:
lower number = higher priority). -/
structure SMSQueueItem where
  phoneNumber : String
  message : String
  priority : Nat
  queueTime : Nat
deriving DecidableEq, Repr

/-- Placeholder for an empty queue slot (C leaves them default-constructed). -/
def dummyItem : SMSQueueItem := ⟨"", "", 0, 0⟩

/-- The GSM globals of `gsm.cpp`: the 5-slot circular SMS buffer with its
head/tail/count, the per-priority rate-limit timestamps and the session flags. -/
structure GSMState where
  smsQueue : Fin 5 → SMSQueueItem
  queueHead : Nat
  queueTail : Nat
  queueCount : Nat
  currentGSMStatus : GSMStatus
  gsmInitialized : Bool
  smsInProgress : Bool
  lastSMSSendTime : Nat
  lastHighPrioritySMS : Nat
  lastMediumPrioritySMS : Nat
  lastLowPrioritySMS : Nat

/-- Reduction of a C array index expression `n % MAX_SMS_QUEUE` to a `Fin 5`. -/
def idx (n : Nat) : Fin 5 := ⟨n % 5, Nat.mod_lt n (by decide)⟩

/-- The logical content of the circular buffer, oldest first: slots
`(queueHead + i) % MAX_SMS_QUEUE` for `i < queueCount`. -/
def queueList (s : GSMState) : List SMSQueueItem :=
  (List.range s.queueCount).map fun i => s.smsQueue (idx (s.queueHead + i))

/-- Well-formedness of the circular buffer, maintained by the firmware: indices in
range, `queueTail` one past the last occupant, and occupant priorities are genuine
`SMSPriority` values. -/
def WF (s : GSMState) : Prop :=
  s.queueHead < 5 ∧ s.queueTail < 5 ∧ s.queueCount ≤ 5 ∧
    s.queueTail = (s.queueHead + s.queueCount) % 5 ∧
    ∀ i < s.queueCount, (s.smsQueue (idx (s.queueHead + i))).priority ≤ 2

instance (s : GSMState) : Decidable (WF s) := by
  unfold WF
  infer_instance

/-- One iteration of the lowest-priority scan loop of `queueSMS` (`gsm.cpp` lines
423-429): remember the slot's priority and index when it is numerically greater
(= lower priority) than the running value. -/
def lowScanStep (q : Fin 5 → SMSQueueItem) (head : Nat) (acc : Nat × Option (Fin 5))
    (i : Nat) : Nat × Option (Fin 5) :=
  if (q (idx (head + i))).priority > acc.1 then
    ((q (idx (head + i))).priority, some (idx (head + i)))
  else acc

/-- The lowest-priority scan of `queueSMS` (`gsm.cpp` lines 420-429): walk all 5
slots from `queueHead`, remembering the numerically greatest (= lowest) priority
and the first slot attaining it (`-1`, i.e. `none`, if every slot is HIGH). -/
def lowestScan (s : GSMState) : Nat × Option (Fin 5) :=
  (List.range MAX_SMS_QUEUE).foldl (lowScanStep s.smsQueue s.queueHead)
    (SMS_PRIORITY_HIGH, none)

/-- `queueSMS` from `gsm.cpp` (lines 416-455): append when capacity is available;
when full, replace the first lowest-priority occupant if the new item's priority is
strictly higher (numerically smaller), else drop the new item. -/
def queueSMS (s : GSMState) (now : Nat) (phoneNumber message : String) (priority : Nat) :
    GSMState :=
  if s.queueCount ≥ MAX_SMS_QUEUE then
    if priority < (lowestScan s).1 then
      match (lowestScan s).2 with
      | some j =>
        { s with smsQueue := Function.update s.smsQueue j ⟨phoneNumber, message, priority, now⟩ }
      | none => s
    else s
  else
    { s with
      smsQueue := Function.update s.smsQueue (idx s.queueTail)
        ⟨phoneNumber, message, priority, now⟩,
      queueTail := (s.queueTail + 1) % MAX_SMS_QUEUE,
      queueCount := s.queueCount + 1 }

/-- The highest-priority scan of `processSMSQueue` (`gsm.cpp` lines 462-472): walk
the `queueCount` occupied slots from `queueHead`, remembering the numerically
smallest (= highest) priority and the first slot attaining it. -/
def highestScan (s : GSMState) : Nat × Option (Fin 5) :=
  (List.range s.queueCount).foldl
    (fun acc i =>
      if (s.smsQueue (idx (s.queueHead + i))).priority < acc.1 then
        ((s.smsQueue (idx (s.queueHead + i))).priority, some (idx (s.queueHead + i)))
      else acc)
    (SMS_PRIORITY_LOW + 1, none)

/-- The per-priority minimum send interval of `processSMSQueue` (the `switch` at
`gsm.cpp` lines 481-494; the final branch is the C default `minInterval`). -/
def classInterval (p : Nat) : Nat :=
  if p = SMS_PRIORITY_HIGH then 10000
  else if p = SMS_PRIORITY_MEDIUM then 30000
  else if p = SMS_PRIORITY_LOW then 120000
  else 30000

/-- The per-priority last-send timestamp selected by the same `switch` (the final
branch is the C default pointer `&lastSMSSendTime`). -/
def classLastSend (s : GSMState) (p : Nat) : Nat :=
  if p = SMS_PRIORITY_HIGH then s.lastHighPrioritySMS
  else if p = SMS_PRIORITY_MEDIUM then s.lastMediumPrioritySMS
  else if p = SMS_PRIORITY_LOW then s.lastLowPrioritySMS
  else s.lastSMSSendTime

/-- The write `*lastSendTime = currentTime` of `processSMSQueue` (line 514). -/
def stampLastSend (s : GSMState) (p now : Nat) : GSMState :=
  if p = SMS_PRIORITY_HIGH then { s with lastHighPrioritySMS := now }
  else if p = SMS_PRIORITY_MEDIUM then { s with lastMediumPrioritySMS := now }
  else if p = SMS_PRIORITY_LOW then { s with lastLowPrioritySMS := now }
  else { s with lastSMSSendTime := now }

/-- The removal loop of `processSMSQueue` (`gsm.cpp` lines 507-510):
`for (int i = hi; i != queueTail; i = (i + 1) % MAX_SMS_QUEUE)
   smsQueue[i] = smsQueue[(i + 1) % MAX_SMS_QUEUE];`
For `start, tail < 5` the loop body runs exactly `(tail + 5 - start) % 5` times. -/
def shiftRemove (q : Fin 5 → SMSQueueItem) (start tail : Nat) : Fin 5 → SMSQueueItem :=
  (List.range ((tail + 5 - start) % 5)).foldl
    (fun f j => Function.update f (idx (start + j)) (f (idx (start + j + 1)))) q

/-- `processSMSQueue` from `gsm.cpp` (lines 457-516).  Returns the new state and
the item handed to `sendCustomSMSInternal` (`none` when nothing was sent).  The
net state effect of `sendCustomSMSInternal` itself (lines 247-285) is
`lastSMSSendTime = millis()` with `smsInProgress` back to `false`. -/
def processSMSQueue (s : GSMState) (now : Nat) : GSMState × Option SMSQueueItem :=
  if s.queueCount = 0 ∨ s.smsInProgress = true ∨ s.currentGSMStatus ≠ GSMStatus.smsReady then
    (s, none)
  else
    match (highestScan s).2 with
    | none => (s, none)
    | some hi =>
      let highestPriority := (highestScan s).1
      if sub32 now (classLastSend s highestPriority) < classInterval highestPriority then
        (s, none)
      else
        let item := s.smsQueue hi
        let s1 := { s with smsInProgress := false, lastSMSSendTime := now }
        let s2 :=
          { s1 with
            smsQueue := shiftRemove s1.smsQueue hi.val s1.queueTail,
            queueCount := s1.queueCount - 1,
            queueTail := (s1.queueTail + MAX_SMS_QUEUE - 1) % MAX_SMS_QUEUE }
        (stampLastSend s2 highestPriority now, some item)

/-- `getSMSPriority` from `gsm.cpp` (lines 399-414). -/
def getSMSPriority : SMSAlertType → Nat
  | SMSAlertType.autoFeed => SMS_PRIORITY_HIGH
  | SMSAlertType.manualFeedAlert => SMS_PRIORITY_HIGH
  | SMSAlertType.feedingError => SMS_PRIORITY_HIGH
  | SMSAlertType.dailyReset => SMS_PRIORITY_MEDIUM
  | SMSAlertType.bowlEmptyAlert => SMS_PRIORITY_MEDIUM
  | SMSAlertType.systemStatus => SMS_PRIORITY_LOW

/-- The message text built by `sendSMSAlert` (`gsm.cpp` lines 199-240). -/
def alertMessage (alertType : SMSAlertType) (additionalInfo : String) (now : Nat) : String :=
  let timeStr := toString (now / 1000)
  match alertType with
  | SMSAlertType.autoFeed =>
    "🤖 Smart Pet Feeder: Auto-fed " ++ additionalInfo ++ " - Bowl was empty. Time: "
      ++ timeStr ++ "s"
  | SMSAlertType.manualFeedAlert =>
    "👤 Smart Pet Feeder: Manual feed " ++ additionalInfo ++ " by button press. Time: "
      ++ timeStr ++ "s"
  | SMSAlertType.systemStatus => "📊 Smart Pet Feeder Status: " ++ additionalInfo
  | SMSAlertType.feedingError =>
    "⚠️ Smart Pet Feeder ERROR: " ++ additionalInfo ++ " Time: " ++ timeStr ++ "s"
  | SMSAlertType.bowlEmptyAlert => "🍽️ Smart Pet Feeder: " ++ additionalInfo
  | SMSAlertType.dailyReset =>
    "🌅 Smart Pet Feeder: New day started. Feed counter reset. Auto feeding enabled."

/-- `sendSMSAlert` from `gsm.cpp` (lines 193-245): when `gsmInitialized` is false
the alert is skipped outright (nothing reaches the queue); otherwise the message is
built and queued with the alert type's priority. -/
def sendSMSAlert (s : GSMState) (now : Nat) (alertType : SMSAlertType)
    (additionalInfo : String) : GSMState :=
  if s.gsmInitialized = false then s
  else
    queueSMS s now TEST_PHONE_NUMBER (alertMessage alertType additionalInfo now)
      (getSMSPriority alertType)

/-- The lowest priority (numerically greatest `SMSPriority` value) among the queued
items, with the same floor `SMS_PRIORITY_HIGH = 0` the firmware's scan starts from. -/
def lowestPriorityOf (l : List SMSQueueItem) : Nat :=
  l.foldl (fun m it => max m it.priority) 0

-- ========================================
-- Auto-feed policy (`main.cpp`)
-- ========================================

/-- The auto-feed slice of the globals of `main.cpp` (including the function-static
`lastMaxFeedAlert` of `handleAutomaticFeeding` and the sensor-derived flags the
policy reads). -/
structure MainState where
  currentMode : FeedingMode
  systemState : SystemState
  lastAutoFeedTime : Nat
  lastAutoFeedCheck : Nat
  bowlEmptyStartTime : Nat
  bowlEmptyConfirmed : Bool
  dailyAutoFeedCount : Nat
  dailyResetTime : Nat
  automaticFeedingEnabled : Bool
  lastMaxFeedAlert : Nat
  bowlEmpty : Bool
  sensorInitialized : Bool
deriving DecidableEq, Repr

/-- `performAutomaticFeed` from `main.cpp` (lines 409-447).  It dispenses via
`manualFeed()` (so `manualFeedSteps`, the mode's minimum portion), stamps
`lastAutoFeedTime`, increments `dailyAutoFeedCount`, clears the confirmation state
and sends an `SMS_AUTO_FEED` alert; `systemState` ends back at `IDLE`.  Returns the
new main state, the new GSM state and the dispensed step count. -/
def performAutomaticFeed (ms : MainState) (gs : GSMState) (now : Nat) :
    MainState × GSMState × Nat :=
  let steps := manualFeedSteps ms.currentMode
  let ms1 :=
    { ms with
      systemState := SystemState.idle,
      lastAutoFeedTime := now,
      dailyAutoFeedCount := ms.dailyAutoFeedCount + 1,
      bowlEmptyConfirmed := false,
      bowlEmptyStartTime := 0 }
  let feedInfo := if ms.currentMode = FeedingMode.cat then "CAT (20g)" else "DOG (50g)"
  let statusInfo := feedInfo ++ " - Daily feeds: " ++ toString ms1.dailyAutoFeedCount ++ "/8"
  (ms1, sendSMSAlert gs now SMSAlertType.autoFeed statusInfo, steps)

/-- The bowl-empty confirmation block of `handleAutomaticFeeding` (`main.cpp`
lines 378-401). -/
def confirmUpdate (ms : MainState) (now : Nat) : MainState :=
  if ms.bowlEmpty = true then
    if ms.bowlEmptyStartTime = 0 then
      { ms with bowlEmptyStartTime := now, bowlEmptyConfirmed := false }
    else if ms.bowlEmptyConfirmed = false ∧
        sub32 now ms.bowlEmptyStartTime > BOWL_EMPTY_CONFIRMATION_TIME then
      { ms with bowlEmptyConfirmed := true }
    else ms
  else
    { ms with bowlEmptyStartTime := 0, bowlEmptyConfirmed := false }

/-- The 24-hour rolling reset at the top of `handleAutomaticFeeding` (`main.cpp`
lines 343-346, calling `resetDailyFeedCount`, lines 449-456). -/
def dailyResetStep (ms : MainState) (gs : GSMState) (now : Nat) : MainState × GSMState :=
  if sub32 now ms.dailyResetTime > 24 * 60 * 60 * 1000 then
    ({ ms with dailyAutoFeedCount := 0, dailyResetTime := now },
      sendSMSAlert gs now SMSAlertType.dailyReset "")
  else (ms, gs)

/-- The hourly "max feeds reached" alert inside the quota branch
(`main.cpp` lines 356-361). -/
def maxFeedAlertStep (ms : MainState) (gs : GSMState) (now : Nat) : MainState × GSMState :=
  if ms.bowlEmpty = true ∧ sub32 now ms.lastMaxFeedAlert > 3600000 then
    ({ ms with lastMaxFeedAlert := now },
      sendSMSAlert gs now SMSAlertType.bowlEmptyAlert
        ("Bowl empty but max daily feeds reached (" ++ toString MAX_DAILY_AUTO_FEEDS
          ++ "/" ++ toString MAX_DAILY_AUTO_FEEDS ++ ")"))
  else (ms, gs)

/-- The gate cascade of `handleAutomaticFeeding` after the 24h reset (`main.cpp`
lines 348-406): the enable / daily-quota / minimum-interval / check-interval
gates, then the confirmation logic, then (conditions permitting)
`performAutomaticFeed`.  The third component is `some steps` exactly when a feed
fired. -/
def feedGates (ms : MainState) (gs : GSMState) (now : Nat) :
    MainState × GSMState × Option Nat :=
  if ms.automaticFeedingEnabled = false then (ms, gs, none)
  else if ms.dailyAutoFeedCount ≥ MAX_DAILY_AUTO_FEEDS then
    ((maxFeedAlertStep ms gs now).1, (maxFeedAlertStep ms gs now).2, none)
  else if ms.lastAutoFeedTime ≠ 0 ∧ sub32 now ms.lastAutoFeedTime < AUTO_FEED_MIN_INTERVAL then
    (ms, gs, none)
  else if sub32 now ms.lastAutoFeedCheck < AUTO_FEED_CHECK_INTERVAL then (ms, gs, none)
  else if (confirmUpdate { ms with lastAutoFeedCheck := now } now).bowlEmptyConfirmed = true ∧
      (confirmUpdate { ms with lastAutoFeedCheck := now } now).sensorInitialized = true then
    ((performAutomaticFeed (confirmUpdate { ms with lastAutoFeedCheck := now } now) gs now).1,
      (performAutomaticFeed (confirmUpdate { ms with lastAutoFeedCheck := now } now) gs now).2.1,
      some (performAutomaticFeed (confirmUpdate { ms with lastAutoFeedCheck := now } now)
        gs now).2.2)
  else (confirmUpdate { ms with lastAutoFeedCheck := now } now, gs, none)

/-- `handleAutomaticFeeding` from `main.cpp` (lines 328-407), one poll: the 24h
reset (`dailyResetStep`) followed by the gate cascade (`feedGates`). -/
def handleAutomaticFeeding (ms0 : MainState) (gs0 : GSMState) (now : Nat) :
    MainState × GSMState × Option Nat :=
  feedGates (dailyResetStep ms0 gs0 now).1 (dailyResetStep ms0 gs0 now).2 now

-- ========================================
-- Concrete states used by witnesses and counterexamples
-- ========================================

/-- A GSM session that has reached `GSM_SMS_READY` with an empty queue. -/
def gsReady : GSMState :=
  { smsQueue := fun _ => dummyItem,
    queueHead := 0, queueTail := 0, queueCount := 0,
    currentGSMStatus := GSMStatus.smsReady, gsmInitialized := true,
    smsInProgress := false, lastSMSSendTime := 0,
    lastHighPrioritySMS := 0, lastMediumPrioritySMS := 0, lastLowPrioritySMS := 0 }

/-- A GSM session still booting: `gsmInitialized` is false, queue empty. -/
def gsOffline : GSMState :=
  { gsReady with currentGSMStatus := GSMStatus.initializing, gsmInitialized := false }

/-- Five successive HIGH-priority enqueues into the ready session: the reachable
full-queue state with `queueHead = queueTail = 0`. -/
def gsFullHigh : GSMState :=
  queueSMS (queueSMS (queueSMS (queueSMS (queueSMS gsReady 1 TEST_PHONE_NUMBER "m1"
    SMS_PRIORITY_HIGH) 2 TEST_PHONE_NUMBER "m2" SMS_PRIORITY_HIGH) 3 TEST_PHONE_NUMBER "m3"
    SMS_PRIORITY_HIGH) 4 TEST_PHONE_NUMBER "m4" SMS_PRIORITY_HIGH) 5 TEST_PHONE_NUMBER "m5"
    SMS_PRIORITY_HIGH

/-- A ready session holding one HIGH item (enqueued first) and one LOW item. -/
def gsHighLow : GSMState :=
  queueSMS (queueSMS gsReady 100 TEST_PHONE_NUMBER "high alert" SMS_PRIORITY_HIGH)
    200 TEST_PHONE_NUMBER "low status" SMS_PRIORITY_LOW

/-- `gsHighLow` with the High class's limiter recently stamped (5 s before the
first drain at `t = 1000000`); all other fields identical. -/
def gsHighLowBlocked : GSMState :=
  { gsHighLow with lastHighPrioritySMS := 995000 }

/-- A main state in CAT mode, quota untouched, bowl-empty confirmed: the auto-feed
policy fires from here. -/
def msFire : MainState :=
  { currentMode := FeedingMode.cat, systemState := SystemState.idle,
    lastAutoFeedTime := 0, lastAutoFeedCheck := 0,
    bowlEmptyStartTime := 1, bowlEmptyConfirmed := true,
    dailyAutoFeedCount := 0, dailyResetTime := 9999995,
    automaticFeedingEnabled := true, lastMaxFeedAlert := 0,
    bowlEmpty := true, sensorInitialized := true }

/-- A sensor state with a good cached classification. -/
def stGood : SensorState :=
  { currentDistance := 12, bowlEmpty := true, hopperLow := false,
    lastSensorRead := 0, sensorInitialized := true }

/-- An I2C environment whose trigger write fails with a non-timeout error. -/
def envWriteError : I2CEnv :=
  { firstError := 2, retryError := 0, availableBytes := 3,
    highByte := 0, lowByte := 200, checksum := 200 }

-- ========================================
-- Theorems
-- ========================================

/-- C7: Hysteresis idempotence of the bowl classifier: any number of samples in the
dead band `[8, 15]` cm leaves the classification unchanged; the flag flips only on a
sample below `BOWL_FULL_THRESHOLD` (from empty) or above `BOWL_EMPTY_THRESHOLD`
(from non-empty). -/
theorem analyzeBowlStatus_hysteresis :
    (∀ (b : Bool) (l : List ℚ), (∀ d ∈ l, 8 ≤ d ∧ d ≤ 15) →
      l.foldl analyzeBowlStatus b = b) ∧
    (∀ (b : Bool) (d : ℚ), analyzeBowlStatus b d ≠ b →
      (b = true ∧ d < BOWL_FULL_THRESHOLD) ∨ (b = false ∧ d > BOWL_EMPTY_THRESHOLD)) := by
  constructor
  · intro b l
    induction l generalizing b with
    | nil => intro _; rfl
    | cons hd tl ih =>
      intro h
      have hhd := h hd (List.mem_cons_self hd tl)
      have hstep : analyzeBowlStatus b hd = b := by
        unfold analyzeBowlStatus BOWL_EMPTY_THRESHOLD BOWL_FULL_THRESHOLD
        rw [if_neg (by linarith [hhd.1, hhd.2]), if_neg (by linarith [hhd.1, hhd.2])]
      rw [List.foldl_cons, hstep]
      exact ih b fun d hd' => h d (List.mem_cons_of_mem _ hd')
  · intro b d hne
    unfold analyzeBowlStatus at hne
    by_cases h1 : d > BOWL_EMPTY_THRESHOLD
    · rw [if_pos h1] at hne
      refine Or.inr ⟨?_, h1⟩
      cases b
      · rfl
      · exact absurd rfl hne
    · rw [if_neg h1] at hne
      by_cases h2 : d < BOWL_FULL_THRESHOLD
      · rw [if_pos h2] at hne
        refine Or.inl ⟨?_, h2⟩
        cases b
        · exact absurd rfl hne
        · rfl
      · rw [if_neg h2] at hne
        exact absurd rfl hne

/-- C7 witness: a concrete dead-band run and a concrete flip. -/
theorem analyzeBowlStatus_hysteresis_witness :
    ([9, 15, 8] : List ℚ).foldl analyzeBowlStatus true = true ∧
    ((true = true ∧ (5 : ℚ) < BOWL_FULL_THRESHOLD) ∨
      (true = false ∧ (5 : ℚ) > BOWL_EMPTY_THRESHOLD)) :=
  ⟨analyzeBowlStatus_hysteresis.1 true [9, 15, 8]
      (by intro d hd; fin_cases hd <;> norm_num),
    analyzeBowlStatus_hysteresis.2 true 5
      (by norm_num [analyzeBowlStatus, BOWL_FULL_THRESHOLD, BOWL_EMPTY_THRESHOLD])⟩

/-- C8 counterexample: with exactly `DEBOUNCE_DELAY` (50 ms) elapsed since the last
accepted press, a HIGH→LOW edge is NOT reported (the firmware tests
`millis() - lastDebounceTime > DEBOUNCE_DELAY`, strictly), contradicting the
claim's "at least 50 ms"; one millisecond later it is reported. -/
theorem readButtonWithDebounce_fifty_ms_no_event :
    sub32 50 0 ≥ DEBOUNCE_DELAY ∧
    (readButtonWithDebounce HIGH LOW 0 50).1 = false ∧
    (readButtonWithDebounce HIGH LOW 0 51).1 = true := by decide

/-- C8 (amended): a press is reported iff the sample is a HIGH→LOW edge and
STRICTLY more than `DEBOUNCE_DELAY` (50 ms) has elapsed since the last accepted
press; `lastState` is updated to the fresh sample unconditionally, and the
debounce stamp moves to `now` exactly on an accepted press. -/
theorem readButtonWithDebounce_spec (lastState currentState : Bool) (t now : Nat) :
    ((readButtonWithDebounce lastState currentState t now).1 = true ↔
      lastState = HIGH ∧ currentState = LOW ∧ sub32 now t > DEBOUNCE_DELAY) ∧
    (readButtonWithDebounce lastState currentState t now).2.1 = currentState ∧
    ((readButtonWithDebounce lastState currentState t now).1 = true →
      (readButtonWithDebounce lastState currentState t now).2.2 = now) ∧
    ((readButtonWithDebounce lastState currentState t now).1 = false →
      (readButtonWithDebounce lastState currentState t now).2.2 = t) := by
  unfold readButtonWithDebounce
  by_cases h1 : lastState = HIGH ∧ currentState = LOW
  · rw [if_pos h1]
    by_cases h2 : sub32 now t > DEBOUNCE_DELAY
    · rw [if_pos h2]
      exact ⟨by simp [h1.1, h1.2, h2], rfl, fun _ => rfl, by simp⟩
    · rw [if_neg h2]
      exact ⟨by simp [h2], rfl, by simp, fun _ => rfl⟩
  · rw [if_neg h1]
    refine ⟨⟨(fun hfalse => nomatch hfalse),
      fun hc => absurd ⟨hc.1, hc.2.1⟩ h1⟩, rfl, by simp, fun _ => rfl⟩

/-- C8 witness: a debounced press at 100 ms elapsed is reported and restamps the
debounce time. -/
theorem readButtonWithDebounce_spec_witness :
    (readButtonWithDebounce HIGH LOW 0 100).1 = true ∧
    (readButtonWithDebounce HIGH LOW 0 100).2.2 = 100 :=
  ⟨(readButtonWithDebounce_spec HIGH LOW 0 100).1.mpr (by decide),
    (readButtonWithDebounce_spec HIGH LOW 0 100).2.2.1
      ((readButtonWithDebounce_spec HIGH LOW 0 100).1.mpr (by decide))⟩

/-- C10: while `gsmInitialized` is false (boot window, or any time before the
session first reaches `GSM_SMS_READY`), `sendSMSAlert` discards the alert outright:
the whole GSM state — in particular the queue — is left unchanged, even with free
capacity. -/
theorem sendSMSAlert_skipped_when_uninitialized (s : GSMState) (now : Nat)
    (alertType : SMSAlertType) (info : String) (h : s.gsmInitialized = false) :
    sendSMSAlert s now alertType info = s := by
  unfold sendSMSAlert
  rw [if_pos h]

/-- C10 witness: a feeding alert raised while the modem is still initializing is
lost even though the queue is empty. -/
theorem sendSMSAlert_skipped_witness :
    sendSMSAlert gsOffline 5 SMSAlertType.autoFeed "CAT (20g)" = gsOffline ∧
    gsOffline.queueCount < MAX_SMS_QUEUE :=
  ⟨sendSMSAlert_skipped_when_uninitialized gsOffline 5 SMSAlertType.autoFeed "CAT (20g)" rfl,
    by decide⟩

/-- C5 counterexample: for `0 < steps < 4` (with `max_speed_hz > 0`) the
acceleration profile computes `accelSteps = min(steps / 4, acceleration) = 0` and
the delay-ramp step `(MAX_STEP_DELAY - targetDelay) / accelSteps` divides by zero
(undefined behavior in the C source). -/
theorem dispenseDelayStep_div_by_zero_small_steps :
    (0 : Int) < 1 ∧ (0 : Int) < 200 ∧
    dispenseDelayStep 1 200 100 = SmoothOutcome.divByZero ∧
    dispenseDelayStep 3 200 100 = SmoothOutcome.divByZero := by decide

/-- C5 (amended): for `steps ≥ 4` with a positive acceleration parameter (both
within `int` range) and `max_speed_hz > 0`, `accelSteps` is positive and the
delay-ramp division is well-defined; `steps ≤ 0` is rejected as a no-op, but
`0 < steps < 4` divides by zero. -/
theorem dispenseDelayStep_welldefined_of_four_le (steps maxSpeed acceleration : Int)
    (h1 : 4 ≤ steps) (h2 : steps < 2 ^ 31) (h3 : 1 ≤ acceleration)
    (h4 : acceleration < 2 ^ 31) (_h5 : 0 < maxSpeed) :
    ∃ d, dispenseDelayStep steps maxSpeed acceleration = SmoothOutcome.ok d := by
  have hs : ¬ steps ≤ 0 := by omega
  have hmin1 : 1 ≤ min (steps / 4) acceleration := by
    have hq : 1 ≤ steps / 4 := by omega
    exact le_min hq h3
  have hmin2 : min (steps / 4) acceleration < 4294967296 := by
    calc min (steps / 4) acceleration ≤ acceleration := min_le_right _ _
      _ < 4294967296 := by omega
  have hz : ¬ toU32 (min (steps / 4) acceleration) = 0 := by
    unfold toU32 U32
    omega
  refine ⟨sub32 MAX_STEP_DELAY (1000000 / toU32 maxSpeed) / toU32 (min (steps / 4) acceleration), ?_⟩
  unfold dispenseDelayStep
  rw [if_neg hs]
  show (if toU32 (min (steps / 4) acceleration) = 0 then SmoothOutcome.divByZero
    else SmoothOutcome.ok (sub32 MAX_STEP_DELAY (1000000 / toU32 maxSpeed)
      / toU32 (min (steps / 4) acceleration))) = _
  rw [if_neg hz]

/-- C5 witness: the in-repo call `dispensePortionSmooth(500, 200, 100)`
(manual CAT feed) is well-defined. -/
theorem dispenseDelayStep_welldefined_witness :
    (4 : Int) ≤ 500 ∧ (0 : Int) < 200 ∧
    ∃ d, dispenseDelayStep 500 200 100 = SmoothOutcome.ok d :=
  ⟨by decide, by decide,
    dispenseDelayStep_welldefined_of_four_le 500 200 100 (by decide) (by decide)
      (by decide) (by decide) (by decide)⟩

/-- C9: whenever `readUltrasonicDistance` fails (transport error after the single
re-init retry, short frame, or out-of-range distance), `updateSensorReadings`
leaves `currentDistance`, `bowlEmpty` and `hopperLow` untouched. -/
theorem updateSensorReadings_frame_on_failure (st : SensorState) (env : I2CEnv) (now : Nat)
    (hfail : readUltrasonicDistance st.sensorInitialized env = none) :
    (updateSensorReadings st env now).currentDistance = st.currentDistance ∧
    (updateSensorReadings st env now).bowlEmpty = st.bowlEmpty ∧
    (updateSensorReadings st env now).hopperLow = st.hopperLow := by
  unfold updateSensorReadings
  by_cases hi : sub32 now st.lastSensorRead ≥ SENSOR_READ_INTERVAL
  · rw [if_pos hi]
    by_cases hs : st.sensorInitialized
    · simp only [hs, if_true]
      rw [hs] at hfail
      simp [hfail]
    · simp only [hs, if_false]
      exact ⟨rfl, rfl, rfl⟩
  · rw [if_neg hi]
    exact ⟨rfl, rfl, rfl⟩

/-- C9 witness: an I2C write error (code 2, not retried) leaves the cached
classification of `stGood` unchanged. -/
theorem updateSensorReadings_frame_witness :
    (updateSensorReadings stGood envWriteError 2000).currentDistance = stGood.currentDistance ∧
    (updateSensorReadings stGood envWriteError 2000).bowlEmpty = stGood.bowlEmpty ∧
    (updateSensorReadings stGood envWriteError 2000).hopperLow = stGood.hopperLow :=
  updateSensorReadings_frame_on_failure stGood envWriteError 2000 (by decide)

/-- C1 (code bug): when the auto-feed policy fires, `performAutomaticFeed` calls
`manualFeed()` and so dispenses the mode's MINIMUM portion (CAT: 500 steps), not
`(min+max)/2 = 1100` as computed by the (uncalled) `automaticFeed()`; the
bookkeeping effects (count +1, `lastAutoFeedTime = now`, confirmation cleared,
HIGH-priority alert queued) do hold. -/
theorem performAutomaticFeed_uses_min_portion :
    (performAutomaticFeed msFire gsReady 10000000).2.2 = manualFeedSteps FeedingMode.cat ∧
    (performAutomaticFeed msFire gsReady 10000000).2.2 = 500 ∧
    automaticFeedSteps FeedingMode.cat = 1100 ∧
    (performAutomaticFeed msFire gsReady 10000000).2.2 ≠ automaticFeedSteps FeedingMode.cat ∧
    (performAutomaticFeed msFire gsReady 10000000).1.dailyAutoFeedCount
      = msFire.dailyAutoFeedCount + 1 ∧
    (performAutomaticFeed msFire gsReady 10000000).1.lastAutoFeedTime = 10000000 ∧
    (performAutomaticFeed msFire gsReady 10000000).1.bowlEmptyConfirmed = false ∧
    (performAutomaticFeed msFire gsReady 10000000).1.bowlEmptyStartTime = 0 ∧
    (queueList (performAutomaticFeed msFire gsReady 10000000).2.1).map (·.priority)
      = [SMS_PRIORITY_HIGH] ∧
    (handleAutomaticFeeding msFire gsReady 10000000).2.2 = some 500 := by decide

/-- C2 (code bug): on the reachable full queue of five HIGH items (head = tail = 0,
session `SMS_READY`, no send in flight, rate gate passing) `processSMSQueue` sends
the head item "m1" but the circular-buffer removal loop exits immediately
(`highestPriorityIndex == queueTail`), so "m1" stays queued and the newest item
"m5" is silently dropped — instead of the claimed removal of exactly the sent item
preserving the rest. -/
theorem processSMSQueue_full_queue_removes_wrong_item :
    (queueList gsFullHigh).map (·.message) = ["m1", "m2", "m3", "m4", "m5"] ∧
    gsFullHigh.queueHead = 0 ∧ gsFullHigh.queueTail = 0 ∧ gsFullHigh.queueCount = 5 ∧
    WF gsFullHigh ∧
    (processSMSQueue gsFullHigh 1000000).2
      = some ⟨TEST_PHONE_NUMBER, "m1", SMS_PRIORITY_HIGH, 1⟩ ∧
    (queueList (processSMSQueue gsFullHigh 1000000).1).map (·.message)
      = ["m1", "m2", "m3", "m4"] ∧
    (queueList (processSMSQueue gsFullHigh 1000000).1).map (·.message)
      ≠ ["m2", "m3", "m4", "m5"] := by decide

/-- C3 counterexample: two states identical except for the High class's last-send
stamp, each holding a ready Low item (its own 120 s gate long satisfied) behind a
High item.  With the High limiter idle the Low item is sent on the second drain;
with the High limiter recently stamped nothing at all is sent on either drain —
the queued Low item IS delayed by the High class's limiter. -/
theorem processSMSQueue_low_delayed_by_high_limiter :
    (queueList gsHighLow).map (·.priority) = [SMS_PRIORITY_HIGH, SMS_PRIORITY_LOW] ∧
    queueList gsHighLowBlocked = queueList gsHighLow ∧
    gsHighLowBlocked.lastHighPrioritySMS = 995000 ∧ gsHighLow.lastHighPrioritySMS = 0 ∧
    gsHighLowBlocked.lastLowPrioritySMS = gsHighLow.lastLowPrioritySMS ∧
    gsHighLowBlocked.lastMediumPrioritySMS = gsHighLow.lastMediumPrioritySMS ∧
    sub32 1000000 gsHighLow.lastLowPrioritySMS ≥ classInterval SMS_PRIORITY_LOW ∧
    (processSMSQueue (processSMSQueue gsHighLow 1000000).1 1000001).2
      = some ⟨TEST_PHONE_NUMBER, "low status", SMS_PRIORITY_LOW, 200⟩ ∧
    (processSMSQueue gsHighLowBlocked 1000000).2 = none ∧
    (processSMSQueue (processSMSQueue gsHighLowBlocked 1000000).1 1000001).2 = none := by decide

/-- `processSMSQueue` reads only queue/session fields and the selected class's
last-send stamp: its send decision and sent item are invariant under any change of
the other timestamp fields. -/
theorem processSMSQueue_snd_congr (s s' : GSMState) (now : Nat)
    (hq : s'.smsQueue = s.smsQueue) (hh : s'.queueHead = s.queueHead)
    (hc : s'.queueCount = s.queueCount) (hip : s'.smsInProgress = s.smsInProgress)
    (hst : s'.currentGSMStatus = s.currentGSMStatus)
    (hgate : classLastSend s' (highestScan s).1 = classLastSend s (highestScan s).1) :
    (processSMSQueue s' now).2 = (processSMSQueue s now).2 := by
  have hscan : highestScan s' = highestScan s := by
    unfold highestScan
    rw [hq, hh, hc]
  simp only [processSMSQueue]
  rw [hscan, hq, hc, hip, hst, hgate]
  by_cases hg : s.queueCount = 0 ∨ s.smsInProgress = true ∨
      s.currentGSMStatus ≠ GSMStatus.smsReady
  · rw [if_pos hg, if_pos hg]
  · rw [if_neg hg, if_neg hg]
    cases hhi : (highestScan s).2 with
    | none => rfl
    | some hi =>
      simp only []
      by_cases hgate2 : sub32 now (classLastSend s (highestScan s).1)
          < classInterval (highestScan s).1
      · rw [if_pos hgate2, if_pos hgate2]
      · rw [if_neg hgate2, if_neg hgate2]

/-- C3 (amended): the rate gate applied by each drain step uses only the SELECTED
item's own priority class timestamp — a queued High item is never delayed by the
Medium or Low limiter, and when a Low item is the highest-priority item present it
is gated only by the Low limiter.  (Because only the single highest-priority item
is considered per step, a Low item behind a rate-limited High item is nevertheless
deferred until the High limiter clears.) -/
theorem processSMSQueue_gate_uses_own_class (s : GSMState) (now h m l t : Nat) :
    ((highestScan s).1 = SMS_PRIORITY_HIGH →
      (processSMSQueue
          { s with lastMediumPrioritySMS := m, lastLowPrioritySMS := l, lastSMSSendTime := t }
          now).2 = (processSMSQueue s now).2) ∧
    ((highestScan s).1 = SMS_PRIORITY_MEDIUM →
      (processSMSQueue
          { s with lastHighPrioritySMS := h, lastLowPrioritySMS := l, lastSMSSendTime := t }
          now).2 = (processSMSQueue s now).2) ∧
    ((highestScan s).1 = SMS_PRIORITY_LOW →
      (processSMSQueue
          { s with lastHighPrioritySMS := h, lastMediumPrioritySMS := m, lastSMSSendTime := t }
          now).2 = (processSMSQueue s now).2) := by
  refine ⟨fun hp => ?_, fun hp => ?_, fun hp => ?_⟩
  · exact processSMSQueue_snd_congr s
      { s with lastMediumPrioritySMS := m, lastLowPrioritySMS := l, lastSMSSendTime := t }
      now rfl rfl rfl rfl rfl (by rw [hp]; rfl)
  · exact processSMSQueue_snd_congr s
      { s with lastHighPrioritySMS := h, lastLowPrioritySMS := l, lastSMSSendTime := t }
      now rfl rfl rfl rfl rfl (by rw [hp]; rfl)
  · exact processSMSQueue_snd_congr s
      { s with lastHighPrioritySMS := h, lastMediumPrioritySMS := m, lastSMSSendTime := t }
      now rfl rfl rfl rfl rfl (by rw [hp]; rfl)

/-- C3 witness: with a High item selected, perturbing the Medium/Low/default
stamps does not change the drain outcome. -/
theorem processSMSQueue_gate_witness :
    (processSMSQueue
        { gsHighLow with lastMediumPrioritySMS := 77777, lastLowPrioritySMS := 88888,
                         lastSMSSendTime := 99999 }
        1000000).2
      = (processSMSQueue gsHighLow 1000000).2 :=
  (processSMSQueue_gate_uses_own_class gsHighLow 1000000 0 77777 88888 99999).1 (by decide)

/-- The confirmation block leaves `sensorInitialized` untouched. -/
theorem confirmUpdate_sensorInitialized (a : MainState) (now : Nat) :
    (confirmUpdate a now).sensorInitialized = a.sensorInitialized := by
  unfold confirmUpdate
  by_cases h1 : a.bowlEmpty = true
  · rw [if_pos h1]
    by_cases h2 : a.bowlEmptyStartTime = 0
    · rw [if_pos h2]
    · rw [if_neg h2]
      by_cases h3 : a.bowlEmptyConfirmed = false ∧
          sub32 now a.bowlEmptyStartTime > BOWL_EMPTY_CONFIRMATION_TIME
      · rw [if_pos h3]
      · rw [if_neg h3]
  · rw [if_neg h1]

/-- Closed form of the confirmation flag after the confirmation block. -/
theorem confirmUpdate_confirmed_eq (a : MainState) (now : Nat) :
    (confirmUpdate a now).bowlEmptyConfirmed =
      if a.bowlEmpty = true then
        (if a.bowlEmptyStartTime = 0 then false
          else if a.bowlEmptyConfirmed = false ∧
              sub32 now a.bowlEmptyStartTime > BOWL_EMPTY_CONFIRMATION_TIME then true
          else a.bowlEmptyConfirmed)
      else false := by
  unfold confirmUpdate
  by_cases h1 : a.bowlEmpty = true
  · rw [if_pos h1, if_pos h1]
    by_cases h2 : a.bowlEmptyStartTime = 0
    · rw [if_pos h2, if_pos h2]
    · rw [if_neg h2, if_neg h2]
      by_cases h3 : a.bowlEmptyConfirmed = false ∧
          sub32 now a.bowlEmptyStartTime > BOWL_EMPTY_CONFIRMATION_TIME
      · rw [if_pos h3, if_pos h3]
      · rw [if_neg h3, if_neg h3]
  · rw [if_neg h1, if_neg h1]

/-- In the gate cascade, a fired feed implies every gate was passed: the policy
enabled, the (possibly reset) daily count below the quota, the minimum interval
satisfied or bypassed (`lastAutoFeedTime = 0`), the sensor healthy and the
confirmation flag set. -/
theorem feedGates_fire (ms : MainState) (gs : GSMState) (now : Nat)
    (hfed : (feedGates ms gs now).2.2 ≠ none) :
    ms.automaticFeedingEnabled = true ∧ ms.sensorInitialized = true ∧
    ms.dailyAutoFeedCount < MAX_DAILY_AUTO_FEEDS ∧
    (ms.lastAutoFeedTime = 0 ∨ AUTO_FEED_MIN_INTERVAL ≤ sub32 now ms.lastAutoFeedTime) ∧
    (confirmUpdate ms now).bowlEmptyConfirmed = true := by
  unfold feedGates at hfed
  by_cases he : ms.automaticFeedingEnabled = false
  · rw [if_pos he] at hfed
    exact absurd rfl hfed
  · rw [if_neg he] at hfed
    by_cases hq : ms.dailyAutoFeedCount ≥ MAX_DAILY_AUTO_FEEDS
    · rw [if_pos hq] at hfed
      exact absurd rfl hfed
    · rw [if_neg hq] at hfed
      by_cases hint : ms.lastAutoFeedTime ≠ 0 ∧
          sub32 now ms.lastAutoFeedTime < AUTO_FEED_MIN_INTERVAL
      · rw [if_pos hint] at hfed
        exact absurd rfl hfed
      · rw [if_neg hint] at hfed
        by_cases hchk : sub32 now ms.lastAutoFeedCheck < AUTO_FEED_CHECK_INTERVAL
        · rw [if_pos hchk] at hfed
          exact absurd rfl hfed
        · rw [if_neg hchk] at hfed
          by_cases hcf :
              (confirmUpdate { ms with lastAutoFeedCheck := now } now).bowlEmptyConfirmed
                  = true ∧
              (confirmUpdate { ms with lastAutoFeedCheck := now } now).sensorInitialized
                  = true
          · refine ⟨?_, ?_, by omega, ?_, ?_⟩
            · cases hE : ms.automaticFeedingEnabled
              · exact absurd hE he
              · rfl
            · have hsi := hcf.2
              rw [confirmUpdate_sensorInitialized] at hsi
              exact hsi
            · by_cases h0 : ms.lastAutoFeedTime = 0
              · exact Or.inl h0
              · refine Or.inr ?_
                have hge : ¬ sub32 now ms.lastAutoFeedTime < AUTO_FEED_MIN_INTERVAL :=
                  fun hB => hint ⟨h0, hB⟩
                omega
            · have hc := hcf.1
              rw [confirmUpdate_confirmed_eq] at hc
              rw [confirmUpdate_confirmed_eq]
              exact hc
          · rw [if_neg hcf] at hfed
            exact absurd rfl hfed

/-- C6: a feed fires on a poll only when ALL of the claim's conditions hold on the
incoming state — auto feeding enabled, sensor healthy, the daily quota not
exhausted (or the 24h reset fired this very poll), the minimum interval satisfied
or bypassed by `lastAutoFeedTime = 0`, and the bowl-empty confirmation flag set;
and at `dailyAutoFeedCount = MAX_DAILY_AUTO_FEEDS` no feed fires until the 24h
reset. -/
theorem handleAutomaticFeeding_fire_conditions (ms0 : MainState) (gs0 : GSMState)
    (now : Nat) :
    ((handleAutomaticFeeding ms0 gs0 now).2.2 ≠ none →
      ms0.automaticFeedingEnabled = true ∧
      ms0.sensorInitialized = true ∧
      (ms0.dailyAutoFeedCount < MAX_DAILY_AUTO_FEEDS ∨
        sub32 now ms0.dailyResetTime > 24 * 60 * 60 * 1000) ∧
      (ms0.lastAutoFeedTime = 0 ∨ AUTO_FEED_MIN_INTERVAL ≤ sub32 now ms0.lastAutoFeedTime) ∧
      (confirmUpdate ms0 now).bowlEmptyConfirmed = true) ∧
    (ms0.dailyAutoFeedCount ≥ MAX_DAILY_AUTO_FEEDS →
      ¬ sub32 now ms0.dailyResetTime > 24 * 60 * 60 * 1000 →
      (handleAutomaticFeeding ms0 gs0 now).2.2 = none) := by
  constructor
  · intro hfed
    unfold handleAutomaticFeeding at hfed
    by_cases hr : sub32 now ms0.dailyResetTime > 24 * 60 * 60 * 1000
    · have hmsR : (dailyResetStep ms0 gs0 now).1
          = { ms0 with dailyAutoFeedCount := 0, dailyResetTime := now } := by
        unfold dailyResetStep
        rw [if_pos hr]
      rw [hmsR] at hfed
      have hfire := feedGates_fire _ _ _ hfed
      refine ⟨hfire.1, hfire.2.1, Or.inr hr, hfire.2.2.2.1, ?_⟩
      have hc := hfire.2.2.2.2
      rw [confirmUpdate_confirmed_eq] at hc
      rw [confirmUpdate_confirmed_eq]
      exact hc
    · have hmsR : (dailyResetStep ms0 gs0 now).1 = ms0 := by
        unfold dailyResetStep
        rw [if_neg hr]
      rw [hmsR] at hfed
      have hfire := feedGates_fire _ _ _ hfed
      exact ⟨hfire.1, hfire.2.1, Or.inl hfire.2.2.1, hfire.2.2.2.1, hfire.2.2.2.2⟩
  · intro hcnt hnr
    unfold handleAutomaticFeeding
    have hmsR : dailyResetStep ms0 gs0 now = (ms0, gs0) := by
      unfold dailyResetStep
      rw [if_neg hnr]
    rw [hmsR]
    show (feedGates ms0 gs0 now).2.2 = none
    unfold feedGates
    by_cases he : ms0.automaticFeedingEnabled = false
    · rw [if_pos he]
    · rw [if_neg he, if_pos hcnt]

/-- The running value of the lowest-priority scan is the maximum of the scanned
slots' priorities (and the accumulator). -/
theorem lowScanStep_foldl_fst (q : Fin 5 → SMSQueueItem) (head : Nat) (L : List Nat) :
    ∀ acc : Nat × Option (Fin 5),
      (L.foldl (lowScanStep q head) acc).1
        = L.foldl (fun m i => max m (q (idx (head + i))).priority) acc.1 := by
  induction L with
  | nil => intro acc; rfl
  | cons x L ih =>
    intro acc
    rw [List.foldl_cons, List.foldl_cons, ih]
    congr 1
    unfold lowScanStep
    split
    · rename_i hgt
      simp [Nat.max_eq_right (Nat.le_of_lt hgt)]
    · rename_i hle
      simp [Nat.max_eq_left (Nat.le_of_not_lt hle)]

/-- Invariant of the lowest-priority scan: a remembered index points at a slot
whose priority equals the running value, and a `none` result means the running
value is still the floor `0`. -/
theorem lowScanStep_foldl_inv (q : Fin 5 → SMSQueueItem) (head : Nat) (L : List Nat) :
    ∀ acc : Nat × Option (Fin 5),
      (∀ j, acc.2 = some j → (q j).priority = acc.1) → (acc.2 = none → acc.1 = 0) →
      ((∀ j, (L.foldl (lowScanStep q head) acc).2 = some j →
          (q j).priority = (L.foldl (lowScanStep q head) acc).1) ∧
        ((L.foldl (lowScanStep q head) acc).2 = none →
          (L.foldl (lowScanStep q head) acc).1 = 0)) := by
  induction L with
  | nil => intro acc h1 h2; exact ⟨h1, h2⟩
  | cons x L ih =>
    intro acc h1 h2
    rw [List.foldl_cons]
    refine ih _ ?_ ?_
    · intro j hj
      unfold lowScanStep at hj ⊢
      split at hj
      · rename_i heq
        rw [if_pos heq]
        injection hj with hj'
        subst hj'
        rfl
      · rename_i heq
        rw [if_neg heq]
        exact h1 j hj
    · intro hnone
      unfold lowScanStep at hnone ⊢
      split at hnone
      · simp at hnone
      · rename_i heq
        rw [if_neg heq]
        exact h2 hnone

/-- On a full queue the scan value of `queueSMS` is exactly the lowest (numerically
greatest) priority among the queued items. -/
theorem lowestScan_fst (s : GSMState) (hc : s.queueCount = 5) :
    (lowestScan s).1 = lowestPriorityOf (queueList s) := by
  unfold lowestScan lowestPriorityOf queueList MAX_SMS_QUEUE SMS_PRIORITY_HIGH
  rw [hc, lowScanStep_foldl_fst]
  simp [List.foldl_map]

/-- The index remembered by the scan of `queueSMS` points at a slot attaining the
scan value; a `none` result forces scan value `0`. -/
theorem lowestScan_inv (s : GSMState) :
    (∀ j, (lowestScan s).2 = some j → (s.smsQueue j).priority = (lowestScan s).1) ∧
    ((lowestScan s).2 = none → (lowestScan s).1 = 0) := by
  unfold lowestScan
  exact lowScanStep_foldl_inv _ _ _ _ (fun j hj => nomatch hj) (fun _ => rfl)

/-- Appending into a non-full well-formed circular buffer appends to its logical
content. -/
theorem queueList_enqueue (s : GSMState) (it : SMSQueueItem)
    (_hh : s.queueHead < 5) (hc : s.queueCount < 5)
    (ht : s.queueTail = (s.queueHead + s.queueCount) % 5) :
    queueList
      { s with
        smsQueue := Function.update s.smsQueue (idx s.queueTail) it,
        queueTail := (s.queueTail + 1) % MAX_SMS_QUEUE,
        queueCount := s.queueCount + 1 }
      = queueList s ++ [it] := by
  show (List.range (s.queueCount + 1)).map
      (fun i => Function.update s.smsQueue (idx s.queueTail) it (idx (s.queueHead + i)))
    = queueList s ++ [it]
  rw [List.range_succ, List.map_append]
  congr 1
  · rw [queueList]
    apply List.map_congr_left
    intro i hi
    have hi' : i < s.queueCount := List.mem_range.mp hi
    apply Function.update_noteq
    intro hEq
    have hv : (s.queueHead + i) % 5 = s.queueTail % 5 := congrArg Fin.val hEq
    omega
  · simp only [List.map_cons, List.map_nil]
    congr 1
    have hidx : idx s.queueTail = idx (s.queueHead + s.queueCount) := by
      apply Fin.ext
      show s.queueTail % 5 = (s.queueHead + s.queueCount) % 5
      omega
    rw [hidx]
    exact Function.update_same _ _ _

/-- Overwriting one slot of a full well-formed circular buffer replaces the item at
its logical position. -/
theorem queueList_update_full (s : GSMState) (j : Fin 5) (it : SMSQueueItem)
    (hh : s.queueHead < 5) (hc : s.queueCount = 5) :
    queueList { s with smsQueue := Function.update s.smsQueue j it }
      = (queueList s).set ((j.val + 5 - s.queueHead) % 5) it := by
  show (List.range s.queueCount).map
      (fun i => Function.update s.smsQueue j it (idx (s.queueHead + i)))
    = (queueList s).set ((j.val + 5 - s.queueHead) % 5) it
  unfold queueList
  apply List.ext_getElem
  · simp
  · intro n h1 h2
    have hn5 : n < 5 := by
      have := h1
      simp at this
      omega
    rw [List.getElem_map, List.getElem_range, List.getElem_set]
    by_cases hn : (j.val + 5 - s.queueHead) % 5 = n
    · rw [if_pos hn]
      have hidx : idx (s.queueHead + n) = j := by
        apply Fin.ext
        show (s.queueHead + n) % 5 = j.val
        have := j.isLt
        omega
      rw [hidx]
      exact Function.update_same _ _ _
    · rw [if_neg hn]
      rw [List.getElem_map, List.getElem_range]
      apply Function.update_noteq
      intro hEq
      have hv : (s.queueHead + n) % 5 = j.val := congrArg Fin.val hEq
      have := j.isLt
      omega

/-- C4: admission control of `queueSMS` on a well-formed queue: the count never
exceeds the capacity 5; with free capacity the item is appended; on a full queue a
strictly-higher-priority item replaces a lowest-priority occupant in place, and
otherwise the call leaves the state entirely unchanged (the new item is dropped).
The call is a total function — the caller is never blocked. -/
theorem queueSMS_admission (s : GSMState) (hWF : WF s) (phone msg : String) (p now : Nat) :
    (queueSMS s now phone msg p).queueCount ≤ MAX_SMS_QUEUE ∧
    (s.queueCount < MAX_SMS_QUEUE →
      queueList (queueSMS s now phone msg p) = queueList s ++ [⟨phone, msg, p, now⟩]) ∧
    (s.queueCount = MAX_SMS_QUEUE → p < lowestPriorityOf (queueList s) →
      ∃ jl, jl < MAX_SMS_QUEUE ∧
        ((queueList s).getD jl dummyItem).priority = lowestPriorityOf (queueList s) ∧
        queueList (queueSMS s now phone msg p)
          = (queueList s).set jl ⟨phone, msg, p, now⟩) ∧
    (s.queueCount = MAX_SMS_QUEUE → ¬ p < lowestPriorityOf (queueList s) →
      queueSMS s now phone msg p = s) := by
  obtain ⟨hh, htl, hcle, htEq, _hpr⟩ := hWF
  have hM : MAX_SMS_QUEUE = 5 := rfl
  refine ⟨?_, ?_, ?_, ?_⟩
  · unfold queueSMS
    by_cases hfull : s.queueCount ≥ MAX_SMS_QUEUE
    · rw [if_pos hfull]
      by_cases hcmp : p < (lowestScan s).1
      · rw [if_pos hcmp]
        cases hsc : (lowestScan s).2 with
        | none => exact hcle
        | some j => exact hcle
      · rw [if_neg hcmp]
        exact hcle
    · rw [if_neg hfull]
      show s.queueCount + 1 ≤ MAX_SMS_QUEUE
      omega
  · intro hlt
    unfold queueSMS
    rw [if_neg (by omega)]
    exact queueList_enqueue s ⟨phone, msg, p, now⟩ hh (by omega) htEq
  · intro hfull hp
    have hc5 : s.queueCount = 5 := by omega
    have hfst := lowestScan_fst s hc5
    unfold queueSMS
    rw [if_pos (by omega), if_pos (by rw [hfst]; exact hp)]
    cases hsc : (lowestScan s).2 with
    | none =>
      exfalso
      have h0 : (lowestScan s).1 = 0 := (lowestScan_inv s).2 hsc
      rw [hfst] at h0
      omega
    | some j =>
      refine ⟨(j.val + 5 - s.queueHead) % 5, by omega, ?_, ?_⟩
      · have hprj := (lowestScan_inv s).1 j hsc
        rw [hfst] at hprj
        have hidx : idx (s.queueHead + (j.val + 5 - s.queueHead) % 5) = j := by
          apply Fin.ext
          show (s.queueHead + (j.val + 5 - s.queueHead) % 5) % 5 = j.val
          have := j.isLt
          omega
        have hjl5 : (j.val + 5 - s.queueHead) % 5 < (queueList s).length := by
          simp [queueList, hc5]
          omega
        rw [List.getD_eq_getElem (queueList s) dummyItem hjl5]
        simp only [queueList, List.getElem_map, List.getElem_range] at hprj ⊢
        rw [hidx]
        exact hprj
      · exact queueList_update_full s j ⟨phone, msg, p, now⟩ hh hc5
  · intro hfull hnp
    have hc5 : s.queueCount = 5 := by omega
    have hfst := lowestScan_fst s hc5
    unfold queueSMS
    rw [if_pos (by omega), if_neg (by rw [hfst]; exact hnp)]

/-- C4 witness: appending into the empty ready queue, and dropping a 6th Low item
when all five slots hold High items. -/
theorem queueSMS_admission_witness :
    (queueSMS gsReady 7 "+639291145133" "hello" SMS_PRIORITY_LOW).queueCount
        ≤ MAX_SMS_QUEUE ∧
    queueList (queueSMS gsReady 7 "+639291145133" "hello" SMS_PRIORITY_LOW)
      = queueList gsReady ++ [⟨"+639291145133", "hello", SMS_PRIORITY_LOW, 7⟩] ∧
    queueSMS gsFullHigh 9 "+639291145133" "m6" SMS_PRIORITY_LOW = gsFullHigh :=
  ⟨(queueSMS_admission gsReady (by decide) "+639291145133" "hello" SMS_PRIORITY_LOW 7).1,
    (queueSMS_admission gsReady (by decide) "+639291145133" "hello" SMS_PRIORITY_LOW 7).2.1
      (by decide),
    (queueSMS_admission gsFullHigh (by decide) "+639291145133" "m6" SMS_PRIORITY_LOW 9).2.2.2
      (by decide) (by decide)⟩

/-- C6 witness: a concrete poll that fires satisfies all the fire conditions. -/
theorem handleAutomaticFeeding_fire_witness :
    msFire.automaticFeedingEnabled = true ∧
    msFire.sensorInitialized = true ∧
    (msFire.dailyAutoFeedCount < MAX_DAILY_AUTO_FEEDS ∨
      sub32 10000000 msFire.dailyResetTime > 24 * 60 * 60 * 1000) ∧
    (msFire.lastAutoFeedTime = 0 ∨
      AUTO_FEED_MIN_INTERVAL ≤ sub32 10000000 msFire.lastAutoFeedTime) ∧
    (confirmUpdate msFire 10000000).bowlEmptyConfirmed = true :=
  (handleAutomaticFeeding_fire_conditions msFire gsReady 10000000).1 (by decide)

end PetFeeder
